import Mathlib

/-!
Verification of the CNI plugin skeleton dispatcher (pkg/skel/skel.go):
request extraction from environment variables, configuration validation,
version reconciliation and handler dispatch.

The dispatcher itself (`getCmdArgsFromEnv`, `validateConfig`,
`checkVersionAndCall`, `pluginMain`) is translated directly from the Go
source.  The `types` and `version` packages of the repository are not part
of the provided source tree; the definitions that stand in for them are
modelled from the specification and carry a doc comment saying so.
-/

namespace CNI

/-- Modelled from the spec: the closed error taxonomy of §4.1 (the repo's
`types` package, with its `ErrXxx` codes, is not in the provided source).
Constructors are listed in the spec's order; `internalFallback` is the
generic internal-error fallback. The spec name `FailedIO` is rendered
`failedInputOutput`. -/
inductive ErrCode : Type
  | missingEnvironmentVariables : ErrCode
  | failedInputOutput : ErrCode
  | failedDecode : ErrCode
  | failedEncode : ErrCode
  | invalidNetworkConfig : ErrCode
  | incompatibleVersion : ErrCode
  | unknownOperation : ErrCode
  | failedHandlerCall : ErrCode
  | internalFallback : ErrCode
  deriving DecidableEq, Repr

/-- Modelled from the spec: the `ProtocolError` value type `{code, message,
detail}` (the repo's `types.Error`, with fields `Code`, `Msg`, `Details`). -/
structure TError : Type where
  code : ErrCode
  msg : String
  details : String
  deriving DecidableEq, Repr

/-- `types.NewError(code, msg, details)`. -/
def NewError (code : ErrCode) (msg details : String) : TError :=
  ⟨code, msg, details⟩

/-- A Go `error` value as returned by an operation handler: either an
already-typed `*types.Error` or any other error, of which the dispatcher
only ever uses the `Error()` message. -/
inductive GoError : Type
  | typed : TError → GoError
  | plain : String → GoError
  deriving DecidableEq, Repr

/-- The configuration body (the raw bytes arriving on standard input) as
seen through the serialization capability the spec treats as given (§1):
either empty, syntactically invalid JSON (with the decoder's message), or a
decoded document exposing the `name` field (Go's zero value `""` when
absent) and the optional protocol-version field. -/
inductive ConfigBody : Type
  | empty : ConfigBody
  | invalid : String → ConfigBody
  | valid : String → Option String → ConfigBody
  deriving DecidableEq, Repr

/-- `CmdArgs` from skel.go: everything passed to the plugin via env vars
and stdin. -/
structure CmdArgs : Type where
  containerID : String
  netns : String
  ifName : String
  args : String
  path : String
  stdinData : ConfigBody
  deriving DecidableEq, Repr

/-- Modelled from the spec: `PluginVersionInfo` (§3) — the ordered list of
protocol versions the plugin supports, plus the version-response encoder,
whose only behaviour the dispatcher observes is success or an encode
failure message (the repo's `version.PluginInfo` is not in the provided
source). -/
structure PluginInfo : Type where
  supportedVersions : List String
  encodeErr : Option String
  deriving DecidableEq, Repr

/-- Split a character list at every dot (the string split of the modelled
version parser, written structurally). -/
def splitDots : List Char → List (List Char)
  | [] => [[]]
  | c :: rest =>
    if c = '.' then [] :: splitDots rest
    else
      match splitDots rest with
      | [] => [[c]]
      | g :: gs => (c :: g) :: gs

/-- Parse a decimal numeral; `none` on the empty string or a non-digit. -/
def parseNat (cs : List Char) : Option Nat :=
  if cs = [] ∨ ¬ cs.all Char.isDigit then none
  else some (cs.foldl (fun a c => a * 10 + (c.toNat - 48)) 0)

/-- Modelled from the spec: a protocol version string of the form
`"major.minor.patch"` (§4.2); anything else is malformed. -/
def parseVersion (s : String) : Option (Nat × Nat × Nat) :=
  match splitDots s.toList with
  | [a, b, c] =>
    match parseNat a, parseNat b, parseNat c with
    | some x, some y, some z => some (x, y, z)
    | _, _, _ => none
  | _ => none

/-- Numeric comparison `a ≥ b` on parsed versions, major first. -/
def versionGE : Nat × Nat × Nat → Nat × Nat × Nat → Bool
  | (a₁, b₁, c₁), (a₂, b₂, c₂) =>
    decide (a₂ < a₁) ||
      (decide (a₁ = a₂) &&
        (decide (b₂ < b₁) || (decide (b₁ = b₂) && decide (c₂ ≤ c₁))))

/-- Modelled from the spec: `version.GreaterThanOrEqualTo(a, b)` —
`greaterOrEqual(a, b) -> bool | DecodeError` (§4.2), a total-ordering
comparison over `"major.minor.patch"` strings; a malformed version string
fails decode rather than comparing lexically. -/
def greaterThanOrEqualTo (a b : String) : Except String Bool :=
  match parseVersion a with
  | none => Except.error ("invalid version: " ++ a)
  | some va =>
    match parseVersion b with
    | none => Except.error ("invalid version: " ++ b)
    | some vb => Except.ok (versionGE va vb)

/-- Modelled from the spec: `version.ConfigDecoder.Decode` —
`decode(configBody) -> protocolVersion | FailedDecode` (§4.2): parses just
the version field; a body that is not valid JSON or omits the field yields
a decode error. -/
def confVersionDecode : ConfigBody → Except String String
  | ConfigBody.empty => Except.error "decoding version from network config: unexpected end of JSON input"
  | ConfigBody.invalid m => Except.error ("decoding version from network config: " ++ m)
  | ConfigBody.valid _ none => Except.error "decoding version from network config: missing field cniVersion"
  | ConfigBody.valid _ (some v) => Except.ok v

/-- Modelled from the spec: `version.Reconciler.Check` —
`check(declaredVersion, pluginVersionInfo) -> ok | IncompatibleVersion`
(§4.2): general compatibility fails iff the declared version is not among
the plugin's supported set; the failure detail names the offending version
and the supported set.  Returns `none` for ok, `some details` on failure. -/
def reconcilerCheck (declared : String) (supported : List String) : Option String :=
  if supported.contains declared then none
  else
    some ("config version " ++ declared ++ " does not match supported versions ["
      ++ String.intercalate "," supported ++ "]")

/-- The `vars` table of `getCmdArgsFromEnv`: each environment variable name
together with its `reqForCmdEntry` map (a Go map lookup returning `false`
for absent keys). -/
def cniVars : List (String × (String → Bool)) :=
  [("CNI_COMMAND", fun c => c == "ADD" || c == "CHECK" || c == "DEL"),
   ("CNI_CONTAINERID", fun c => c == "ADD" || c == "CHECK" || c == "DEL"),
   ("CNI_NETNS", fun c => c == "ADD" || c == "CHECK"),
   ("CNI_IFNAME", fun c => c == "ADD" || c == "CHECK" || c == "DEL"),
   ("CNI_ARGS", fun _ => false),
   ("CNI_PATH", fun c => c == "ADD" || c == "CHECK" || c == "DEL")]

/-- `dispatcher.getCmdArgsFromEnv` from skel.go.  `getenv` is the
dispatcher's `Getenv`; `stdin` is the stdin read outcome (`Except.error`
models an `io.Reader` failure, `Except.ok` the bytes read, exposed through
the serialization capability as a `ConfigBody`).  Go reads each variable
once into a local; `getenv` being a pure function, re-application is the
same value.  Returns `(cmd, cmdArgs)` or a typed error. -/
def getCmdArgsFromEnv (getenv : String → String)
    (stdin : Except String ConfigBody) : Except TError (String × CmdArgs) :=
  let cmd := getenv "CNI_COMMAND"
  let argsMissing :=
    (cniVars.filter
      (fun v => getenv v.1 == "" && (v.2 cmd || v.1 == "CNI_COMMAND"))).map Prod.fst
  if argsMissing.isEmpty then
    match (if cmd == "VERSION" then Except.ok ConfigBody.empty else stdin) with
    | Except.error e =>
      Except.error (NewError ErrCode.failedInputOutput ("error reading from stdin: " ++ e) "")
    | Except.ok stdinData =>
      Except.ok (cmd,
        { containerID := getenv "CNI_CONTAINERID"
          netns := getenv "CNI_NETNS"
          ifName := getenv "CNI_IFNAME"
          args := getenv "CNI_ARGS"
          path := getenv "CNI_PATH"
          stdinData := stdinData })
  else
    Except.error (NewError ErrCode.missingEnvironmentVariables
      ("required env variables [" ++ String.intercalate "," argsMissing ++ "] missing") "")

/-- `validateConfig` from skel.go: unmarshal just the `name` field; a JSON
failure is `FailedDecode`, an empty (or absent, hence zero-valued) name is
`InvalidNetworkConfig`. -/
def validateConfig : ConfigBody → Option TError
  | ConfigBody.empty =>
    some (NewError ErrCode.failedDecode
      "error unmarshall network config: unexpected end of JSON input" "")
  | ConfigBody.invalid m =>
    some (NewError ErrCode.failedDecode ("error unmarshall network config: " ++ m) "")
  | ConfigBody.valid name _ =>
    if name == "" then
      some (NewError ErrCode.invalidNetworkConfig "missing network name" "")
    else none

/-- `dispatcher.checkVersionAndCall` from skel.go: decode the config
version, run the general reconciler check, then invoke the handler,
passing a typed error through unchanged and wrapping any other error as
`FailedHandlerCall`. -/
def checkVersionAndCall (cmdArgs : CmdArgs) (pluginVersionInfo : PluginInfo)
    (toCall : CmdArgs → Option GoError) : Option TError :=
  match confVersionDecode cmdArgs.stdinData with
  | Except.error e => some (NewError ErrCode.failedDecode e "")
  | Except.ok configVersion =>
    match reconcilerCheck configVersion pluginVersionInfo.supportedVersions with
    | some details =>
      some (NewError ErrCode.incompatibleVersion "incompatible CNI versions" details)
    | none =>
      match toCall cmdArgs with
      | none => none
      | some (GoError.typed e) => some e
      | some (GoError.plain m) =>
        some (NewError ErrCode.failedHandlerCall m "")

/-- The `for _, pluginVersion := range versionInfo.SupportedVersions()`
loop of the CHECK branch of `pluginMain`: find the first supported version
`≥` the declared config version and invoke `checkVersionAndCall` there; a
comparison failure aborts with `FailedDecode`; an exhausted list is
`IncompatibleVersion`. -/
def checkLoop (pluginVersions : List String) (configVersion : String)
    (cmdArgs : CmdArgs) (versionInfo : PluginInfo)
    (cmdCheck : CmdArgs → Option GoError) : Option TError :=
  match pluginVersions with
  | [] =>
    some (NewError ErrCode.incompatibleVersion "plugin version does not allow CHECK" "")
  | pluginVersion :: rest =>
    match greaterThanOrEqualTo pluginVersion configVersion with
    | Except.error e => some (NewError ErrCode.failedDecode e "")
    | Except.ok gtet =>
      if gtet then checkVersionAndCall cmdArgs versionInfo cmdCheck
      else checkLoop rest configVersion cmdArgs versionInfo cmdCheck

/-- The `switch cmd` of `pluginMain` in skel.go, after config validation. -/
def routeCmd (cmd : String) (cmdArgs : CmdArgs)
    (cmdAdd cmdCheck cmdDel : CmdArgs → Option GoError)
    (versionInfo : PluginInfo) : Option TError :=
  if cmd == "ADD" then
    checkVersionAndCall cmdArgs versionInfo cmdAdd
  else if cmd == "CHECK" then
    match confVersionDecode cmdArgs.stdinData with
    | Except.error e => some (NewError ErrCode.failedDecode e "")
    | Except.ok configVersion =>
      match greaterThanOrEqualTo configVersion "0.4.0" with
      | Except.error e => some (NewError ErrCode.failedDecode e "")
      | Except.ok gtet =>
        if gtet then
          checkLoop versionInfo.supportedVersions configVersion cmdArgs versionInfo cmdCheck
        else
          some (NewError ErrCode.incompatibleVersion "config version does not allow CHECK" "")
  else if cmd == "DEL" then
    checkVersionAndCall cmdArgs versionInfo cmdDel
  else if cmd == "VERSION" then
    match versionInfo.encodeErr with
    | some e => some (NewError ErrCode.failedEncode e "")
    | none => none
  else
    some (NewError ErrCode.unknownOperation ("unknown CNI_COMMAND: " ++ cmd) "")

/-- What `pluginMain` produces: the returned `*types.Error` (or `none`)
together with the lines written to the diagnostic (stderr) stream. -/
structure DispatchResult : Type where
  err : Option TError
  stderrLines : List String
  deriving DecidableEq, Repr

/-- `dispatcher.pluginMain` from skel.go: extract the request (diverting a
missing-`CNI_COMMAND` failure to the informational about path), validate
the config body for any non-VERSION command, then route by command. -/
def pluginMain (getenv : String → String) (stdin : Except String ConfigBody)
    (cmdAdd cmdCheck cmdDel : CmdArgs → Option GoError)
    (versionInfo : PluginInfo) (about : String) : DispatchResult :=
  match getCmdArgsFromEnv getenv stdin with
  | Except.error err =>
    if err.code = ErrCode.missingEnvironmentVariables ∧ getenv "CNI_COMMAND" = "" ∧ about ≠ ""
    then { err := none, stderrLines := [about] }
    else { err := some err, stderrLines := [] }
  | Except.ok (cmd, cmdArgs) =>
    if cmd ≠ "VERSION" then
      match validateConfig cmdArgs.stdinData with
      | some err => { err := some err, stderrLines := [] }
      | none =>
        { err := routeCmd cmd cmdArgs cmdAdd cmdCheck cmdDel versionInfo, stderrLines := [] }
    else
      { err := routeCmd cmd cmdArgs cmdAdd cmdCheck cmdDel versionInfo, stderrLines := [] }

/-- The §4.3 per-operation requirement table, stated from the spec's words
(for comparison with the `reqForCmd` maps the source carries): `true` iff
the table marks the parameter required for the given operation string. -/
def specTableRequired (param op : String) : Bool :=
  if param == "CNI_COMMAND" then op == "ADD" || op == "CHECK" || op == "DEL"
  else if param == "CNI_CONTAINERID" then op == "ADD" || op == "CHECK" || op == "DEL"
  else if param == "CNI_NETNS" then op == "ADD" || op == "CHECK"
  else if param == "CNI_IFNAME" then op == "ADD" || op == "CHECK" || op == "DEL"
  else if param == "CNI_ARGS" then false
  else if param == "CNI_PATH" then op == "ADD" || op == "CHECK" || op == "DEL"
  else false

/-- The parameters the §4.3 algorithm records as missing, in table order:
those whose value is empty and that are required for the operation, or
that are the command parameter itself. -/
def specMissingVars (getenv : String → String) (op : String) : List String :=
  (["CNI_COMMAND", "CNI_CONTAINERID", "CNI_NETNS",
    "CNI_IFNAME", "CNI_ARGS", "CNI_PATH"].filter
    (fun n => getenv n == "" && (specTableRequired n op || n == "CNI_COMMAND")))

/-! ### Concrete fixtures for witnesses and counterexamples -/

/-- An environment function built from an association list; unlisted
variables are unset (`""`), like Go's `os.Getenv`. -/
def envTable (l : List (String × String)) : String → String :=
  fun n => ((l.find? (fun p => p.1 == n)).map Prod.snd).getD ""

/-- A fully populated CHECK environment. -/
def envCheckFull : String → String :=
  envTable [("CNI_COMMAND", "CHECK"), ("CNI_CONTAINERID", "ctr"), ("CNI_NETNS", "/var/run/netns/x"),
            ("CNI_IFNAME", "eth0"), ("CNI_PATH", "/opt/cni/bin")]

/-- Plugin info supporting `["0.3.0", "0.4.0"]`, encoding successfully. -/
def infoThreeFour : PluginInfo := ⟨["0.3.0", "0.4.0"], none⟩

/-- A handler that succeeds. -/
def handlerOk : CmdArgs → Option GoError := fun _ => none

/-- A handler that fails with a plain (untyped) Go error `"boom"`. -/
def handlerBoom : CmdArgs → Option GoError := fun _ => some (GoError.plain "boom")

/-! ### Extraction lemmas shared by the claim theorems -/

theorem getCmdArgs_ok (getenv : String → String) (body : ConfigBody)
    (hcmd : getenv "CNI_COMMAND" ≠ "") (hver : getenv "CNI_COMMAND" ≠ "VERSION")
    (hcid : getenv "CNI_CONTAINERID" ≠ "") (hns : getenv "CNI_NETNS" ≠ "")
    (hif : getenv "CNI_IFNAME" ≠ "") (hpath : getenv "CNI_PATH" ≠ "") :
    getCmdArgsFromEnv getenv (Except.ok body)
      = Except.ok (getenv "CNI_COMMAND",
          { containerID := getenv "CNI_CONTAINERID"
            netns := getenv "CNI_NETNS"
            ifName := getenv "CNI_IFNAME"
            args := getenv "CNI_ARGS"
            path := getenv "CNI_PATH"
            stdinData := body }) := by
  have h1 : (getenv "CNI_COMMAND" == "") = false := beq_eq_false_iff_ne.mpr hcmd
  have h2 : (getenv "CNI_CONTAINERID" == "") = false := beq_eq_false_iff_ne.mpr hcid
  have h3 : (getenv "CNI_NETNS" == "") = false := beq_eq_false_iff_ne.mpr hns
  have h4 : (getenv "CNI_IFNAME" == "") = false := beq_eq_false_iff_ne.mpr hif
  have h5 : (getenv "CNI_PATH" == "") = false := beq_eq_false_iff_ne.mpr hpath
  have h6 : (getenv "CNI_COMMAND" == "VERSION") = false := beq_eq_false_iff_ne.mpr hver
  simp [getCmdArgsFromEnv, cniVars, h1, h2, h3, h4, h5, h6]

theorem getCmdArgs_no_command (getenv : String → String)
    (stdin : Except String ConfigBody) (hcmd : getenv "CNI_COMMAND" = "") :
    ∃ msg, getCmdArgsFromEnv getenv stdin
      = Except.error (NewError ErrCode.missingEnvironmentVariables msg "") := by
  simp [getCmdArgsFromEnv, cniVars, hcmd]
  exact ⟨_, rfl⟩

/-! ### Claim theorems -/

/-- Claim C7: when the command variable is `VERSION`, request extraction
never reads the standard-input stream (the outcome is the same for any
`stdin`, including a failing one), never requires the namespace parameter
(no hypothesis on any other variable), the constructed request's config
body is empty, and extraction succeeds. -/
theorem version_extraction_no_stdin (getenv : String → String)
    (stdin : Except String ConfigBody) (hcmd : getenv "CNI_COMMAND" = "VERSION") :
    getCmdArgsFromEnv getenv stdin
      = Except.ok ("VERSION",
          { containerID := getenv "CNI_CONTAINERID"
            netns := getenv "CNI_NETNS"
            ifName := getenv "CNI_IFNAME"
            args := getenv "CNI_ARGS"
            path := getenv "CNI_PATH"
            stdinData := ConfigBody.empty }) := by
  simp [getCmdArgsFromEnv, cniVars, hcmd]

/-- Witness for C7: only `CNI_COMMAND=VERSION` is set and the stdin stream
would fail if read, yet extraction succeeds with an empty config body. -/
theorem version_extraction_no_stdin_witness :
    getCmdArgsFromEnv (envTable [("CNI_COMMAND", "VERSION")]) (Except.error "stdin unavailable")
      = Except.ok ("VERSION",
          { containerID := "", netns := "", ifName := "", args := "", path := "",
            stdinData := ConfigBody.empty }) :=
  version_extraction_no_stdin _ _ rfl

/-- Claim C6: with the command variable empty, a non-empty about string is
printed to the diagnostic stream and no error is returned; with an empty
about string the `MissingEnvironmentVariables` error from extraction
propagates as-is. -/
theorem about_string_path (getenv : String → String) (stdin : Except String ConfigBody)
    (cmdAdd cmdCheck cmdDel : CmdArgs → Option GoError) (versionInfo : PluginInfo)
    (about : String) (hcmd : getenv "CNI_COMMAND" = "") :
    (about ≠ "" →
      pluginMain getenv stdin cmdAdd cmdCheck cmdDel versionInfo about
        = { err := none, stderrLines := [about] }) ∧
    (about = "" → ∀ e, getCmdArgsFromEnv getenv stdin = Except.error e →
      pluginMain getenv stdin cmdAdd cmdCheck cmdDel versionInfo about
        = { err := some e, stderrLines := [] }) := by
  obtain ⟨msg, hmsg⟩ := getCmdArgs_no_command getenv stdin hcmd
  constructor
  · intro habout
    simp [pluginMain, hmsg, NewError, hcmd, habout]
  · intro habout e he
    have he' := hmsg.symm.trans he
    injection he' with he''
    subst he''
    simp [pluginMain, hmsg, NewError, habout]

/-- Witness for C6: no variables set; about string `"hello"` goes to
stderr with no error, and an empty about string propagates the
`MissingEnvironmentVariables` error naming `CNI_COMMAND`. -/
theorem about_string_path_witness :
    (pluginMain (envTable []) (Except.ok ConfigBody.empty) handlerOk handlerOk handlerOk
        infoThreeFour "hello"
      = { err := none, stderrLines := ["hello"] })
    ∧ (pluginMain (envTable []) (Except.ok ConfigBody.empty) handlerOk handlerOk handlerOk
        infoThreeFour ""
      = { err := some (NewError ErrCode.missingEnvironmentVariables
            "required env variables [CNI_COMMAND] missing" ""), stderrLines := [] }) :=
  ⟨(about_string_path _ _ _ _ _ _ _ rfl).1 (by decide),
   (about_string_path _ _ _ _ _ _ _ rfl).2 rfl _ rfl⟩

theorem argsMissing_eq_specMissing (getenv : String → String) (op : String)
    (hcmd : getenv "CNI_COMMAND" = op) :
    (cniVars.filter
      (fun v => getenv v.1 == "" && (v.2 (getenv "CNI_COMMAND") || v.1 == "CNI_COMMAND"))).map
        Prod.fst
      = specMissingVars getenv op := by
  subst hcmd
  unfold specMissingVars
  have hnames : ["CNI_COMMAND", "CNI_CONTAINERID", "CNI_NETNS",
      "CNI_IFNAME", "CNI_ARGS", "CNI_PATH"] = cniVars.map Prod.fst := rfl
  rw [hnames, List.filter_map]
  exact congrArg (List.map Prod.fst) (List.filter_congr (by intro x hx; fin_cases hx <;> rfl))

/-- Claim C3: for each operation in {ADD, CHECK, DEL} (and for the empty
command itself), whenever the parameters the §4.3 table marks required are
missing, extraction fails with `MissingEnvironmentVariables` naming
exactly the missing parameters, all of them, joined by commas, in table
order (`specMissingVars` is the table-order list the spec describes). -/
theorem missing_env_vars_all_named (getenv : String → String)
    (stdin : Except String ConfigBody) (op : String)
    (hop : op = "ADD" ∨ op = "CHECK" ∨ op = "DEL" ∨ op = "")
    (hcmd : getenv "CNI_COMMAND" = op)
    (hmiss : specMissingVars getenv op ≠ []) :
    getCmdArgsFromEnv getenv stdin
      = Except.error (NewError ErrCode.missingEnvironmentVariables
          ("required env variables ["
            ++ String.intercalate "," (specMissingVars getenv op) ++ "] missing") "") := by
  have heq := argsMissing_eq_specMissing getenv op hcmd
  have hne : (specMissingVars getenv op).isEmpty = false := by
    cases h : specMissingVars getenv op with
    | nil => exact absurd h hmiss
    | cons a l => rfl
  simp only [getCmdArgsFromEnv, heq, hne, Bool.false_eq_true, if_false]

/-- Witness for C3: `CNI_COMMAND=CHECK` with only `CNI_IFNAME` also set —
all three of the missing required parameters are named, in table order. -/
theorem missing_env_vars_all_named_witness :
    getCmdArgsFromEnv (envTable [("CNI_COMMAND", "CHECK"), ("CNI_IFNAME", "eth0")])
        (Except.ok ConfigBody.empty)
      = Except.error (NewError ErrCode.missingEnvironmentVariables
          "required env variables [CNI_CONTAINERID,CNI_NETNS,CNI_PATH] missing" "") :=
  missing_env_vars_all_named _ _ "CHECK" (by decide) rfl (by decide)

/-- Claim C2: for CHECK, a declared config version strictly below the
fixed floor `"0.4.0"` (in the modelled version order) makes the dispatcher
return `IncompatibleVersion`, for every supported set — even one
containing that very version string — and for every handler (so no handler
is ever consulted). -/
theorem check_below_floor_incompatible (getenv : String → String)
    (cmdAdd cmdCheck cmdDel : CmdArgs → Option GoError) (versionInfo : PluginInfo)
    (about name declared : String)
    (hcmd : getenv "CNI_COMMAND" = "CHECK")
    (hcid : getenv "CNI_CONTAINERID" ≠ "") (hns : getenv "CNI_NETNS" ≠ "")
    (hif : getenv "CNI_IFNAME" ≠ "") (hpath : getenv "CNI_PATH" ≠ "")
    (hname : name ≠ "")
    (hfloor : greaterThanOrEqualTo declared "0.4.0" = Except.ok false) :
    pluginMain getenv (Except.ok (ConfigBody.valid name (some declared)))
        cmdAdd cmdCheck cmdDel versionInfo about
      = { err := some (NewError ErrCode.incompatibleVersion
            "config version does not allow CHECK" ""), stderrLines := [] } := by
  have hok := getCmdArgs_ok getenv (ConfigBody.valid name (some declared))
    (by simp [hcmd]) (by simp [hcmd]) hcid hns hif hpath
  have hne : (name == "") = false := beq_eq_false_iff_ne.mpr hname
  simp [pluginMain, hok, hcmd, validateConfig, hne, routeCmd, confVersionDecode, hfloor]

/-- Witness for C2: declared version `"0.3.0"` is below the floor and in
the supported set `["0.3.0"]`, yet CHECK yields `IncompatibleVersion`. -/
theorem check_below_floor_incompatible_witness :
    pluginMain envCheckFull (Except.ok (ConfigBody.valid "net" (some "0.3.0")))
        handlerOk handlerOk handlerOk ⟨["0.3.0"], none⟩ "about"
      = { err := some (NewError ErrCode.incompatibleVersion
            "config version does not allow CHECK" ""), stderrLines := [] } :=
  check_below_floor_incompatible _ _ _ _ _ _ _ _
    rfl (by decide) (by decide) (by decide) (by decide) (by decide) rfl

/-- Claim C5: for any non-Version operation string (including
unrecognized ones), a syntactically invalid config body fails validation
with `FailedDecode` (the name is never examined — an invalid body carries
none), and a syntactically valid body with an empty or absent `name`
fails with `InvalidNetworkConfig`, never a decode error. -/
theorem config_validation_errors (getenv : String → String)
    (cmdAdd cmdCheck cmdDel : CmdArgs → Option GoError) (versionInfo : PluginInfo)
    (about op : String)
    (hcmd : getenv "CNI_COMMAND" = op) (hop0 : op ≠ "") (hopv : op ≠ "VERSION")
    (hcid : getenv "CNI_CONTAINERID" ≠ "") (hns : getenv "CNI_NETNS" ≠ "")
    (hif : getenv "CNI_IFNAME" ≠ "") (hpath : getenv "CNI_PATH" ≠ "") :
    (∀ m, pluginMain getenv (Except.ok (ConfigBody.invalid m))
        cmdAdd cmdCheck cmdDel versionInfo about
      = { err := some (NewError ErrCode.failedDecode
            ("error unmarshall network config: " ++ m) ""), stderrLines := [] })
    ∧ (∀ vers, pluginMain getenv (Except.ok (ConfigBody.valid "" vers))
        cmdAdd cmdCheck cmdDel versionInfo about
      = { err := some (NewError ErrCode.invalidNetworkConfig
            "missing network name" ""), stderrLines := [] }) := by
  constructor
  · intro m
    have hok := getCmdArgs_ok getenv (ConfigBody.invalid m)
      (by simp [hcmd, hop0]) (by simp [hcmd, hopv]) hcid hns hif hpath
    simp [pluginMain, hok, hcmd, hopv, validateConfig]
  · intro vers
    have hok := getCmdArgs_ok getenv (ConfigBody.valid "" vers)
      (by simp [hcmd, hop0]) (by simp [hcmd, hopv]) hcid hns hif hpath
    simp [pluginMain, hok, hcmd, hopv, validateConfig]

/-- Witness for C5: an ADD with an unparseable body yields `FailedDecode`;
an ADD with a valid body whose name is empty yields
`InvalidNetworkConfig`. -/
theorem config_validation_errors_witness :
    (pluginMain (envTable [("CNI_COMMAND", "ADD"), ("CNI_CONTAINERID", "ctr"),
          ("CNI_NETNS", "/var/run/netns/x"), ("CNI_IFNAME", "eth0"), ("CNI_PATH", "/opt/cni/bin")])
        (Except.ok (ConfigBody.invalid "invalid character"))
        handlerOk handlerOk handlerOk infoThreeFour "about"
      = { err := some (NewError ErrCode.failedDecode
            "error unmarshall network config: invalid character" ""), stderrLines := [] })
    ∧ (pluginMain (envTable [("CNI_COMMAND", "ADD"), ("CNI_CONTAINERID", "ctr"),
          ("CNI_NETNS", "/var/run/netns/x"), ("CNI_IFNAME", "eth0"), ("CNI_PATH", "/opt/cni/bin")])
        (Except.ok (ConfigBody.valid "" (some "0.4.0")))
        handlerOk handlerOk handlerOk infoThreeFour "about"
      = { err := some (NewError ErrCode.invalidNetworkConfig
            "missing network name" ""), stderrLines := [] }) :=
  ⟨(config_validation_errors _ _ _ _ _ _ "ADD"
      rfl (by decide) (by decide) (by decide) (by decide) (by decide) (by decide)).1
    "invalid character",
   (config_validation_errors _ _ _ _ _ _ "ADD"
      rfl (by decide) (by decide) (by decide) (by decide) (by decide) (by decide)).2
    (some "0.4.0")⟩

/-- A fixed `CmdArgs` fixture whose body declares version `"0.4.0"`. -/
def argsCheckFixture : CmdArgs :=
  { containerID := "ctr", netns := "/var/run/netns/x", ifName := "eth0", args := "",
    path := "/opt/cni/bin", stdinData := ConfigBody.valid "net" (some "0.4.0") }

/-- A handler that fails with an already-typed protocol error. -/
def handlerTyped : CmdArgs → Option GoError :=
  fun _ => some (GoError.typed ⟨ErrCode.invalidNetworkConfig, "custom", "custom detail"⟩)

/-- Counterexample to C4 as stated: a handler failing with the plain error
`"boom"` is wrapped as `FailedHandlerCall` whose *message* is `"boom"` and
whose detail field is empty — the detail field does not carry the original
error's message as the claim says. -/
theorem handler_wrap_detail_counterexample :
    checkVersionAndCall argsCheckFixture infoThreeFour handlerBoom
      = some { code := ErrCode.failedHandlerCall, msg := "boom", details := "" }
    ∧ ({ code := ErrCode.failedHandlerCall, msg := "boom", details := "" } : TError).details
        ≠ "boom" := by
  decide

/-- Claim C4 (amended): a handler error that is already a typed protocol
error is propagated unchanged (identical code, message and detail, never
re-wrapped); any other error is wrapped exactly once as
`FailedHandlerCall` carrying the original error's message as the
*message* field, with an empty detail. -/
theorem handler_error_wrapping (cmdArgs : CmdArgs) (versionInfo : PluginInfo)
    (toCall : CmdArgs → Option GoError) (configVersion : String)
    (hdec : confVersionDecode cmdArgs.stdinData = Except.ok configVersion)
    (hrec : reconcilerCheck configVersion versionInfo.supportedVersions = none) :
    (∀ e, toCall cmdArgs = some (GoError.typed e) →
      checkVersionAndCall cmdArgs versionInfo toCall = some e)
    ∧ (∀ m, toCall cmdArgs = some (GoError.plain m) →
      checkVersionAndCall cmdArgs versionInfo toCall
        = some (NewError ErrCode.failedHandlerCall m "")) := by
  constructor <;> intro x hx <;> simp [checkVersionAndCall, hdec, hrec, hx]

/-- Witness for C4 (amended): a typed error passes through identically; a
plain `"boom"` is wrapped once with message `"boom"` and empty detail. -/
theorem handler_error_wrapping_witness :
    (checkVersionAndCall argsCheckFixture infoThreeFour handlerTyped
      = some ⟨ErrCode.invalidNetworkConfig, "custom", "custom detail"⟩)
    ∧ (checkVersionAndCall argsCheckFixture infoThreeFour handlerBoom
      = some (NewError ErrCode.failedHandlerCall "boom" "")) :=
  ⟨(handler_error_wrapping argsCheckFixture infoThreeFour handlerTyped "0.4.0" rfl rfl).1
      _ rfl,
   (handler_error_wrapping argsCheckFixture infoThreeFour handlerBoom "0.4.0" rfl rfl).2
      _ rfl⟩

/-- Counterexample to C1 as stated: with supported versions
`["0.3.0","0.4.0"]` and declared version `"0.3.1"`, CHECK does not proceed
to the handler — `"0.3.1"` is below the `"0.4.0"` floor, so the dispatcher
fails with `IncompatibleVersion` (`"config version does not allow
CHECK"`), not success. -/
theorem check_0_3_1_counterexample :
    pluginMain envCheckFull (Except.ok (ConfigBody.valid "net" (some "0.3.1")))
        handlerOk handlerOk handlerOk infoThreeFour "about"
      = { err := some (NewError ErrCode.incompatibleVersion
            "config version does not allow CHECK" ""), stderrLines := [] }
    ∧ (some (NewError ErrCode.incompatibleVersion "config version does not allow CHECK" "")
        : Option TError) ≠ none := by
  decide

/-- Claim C1 (amended): with supported versions `["0.3.0","0.4.0"]`,
a declared version of `"0.3.1"` fails with `IncompatibleVersion` (it is
below the CHECK floor `"0.4.0"`); a declared version of `"0.4.0"` passes
the floor, is matched by `"0.4.0"` — the first supported version `≥`
declared (`"0.3.0"` is not `≥` it) — and proceeds to the check handler
(the dispatch outcome is the handler's outcome); a declared version of
`"0.5.0"` fails with `IncompatibleVersion`. -/
theorem check_version_selection :
    pluginMain envCheckFull (Except.ok (ConfigBody.valid "net" (some "0.3.1")))
        handlerOk handlerOk handlerOk infoThreeFour "about"
      = { err := some (NewError ErrCode.incompatibleVersion
            "config version does not allow CHECK" ""), stderrLines := [] }
    ∧ pluginMain envCheckFull (Except.ok (ConfigBody.valid "net" (some "0.4.0")))
        handlerOk handlerOk handlerOk infoThreeFour "about"
      = { err := none, stderrLines := [] }
    ∧ pluginMain envCheckFull (Except.ok (ConfigBody.valid "net" (some "0.4.0")))
        handlerOk handlerBoom handlerOk infoThreeFour "about"
      = { err := some (NewError ErrCode.failedHandlerCall "boom" ""), stderrLines := [] }
    ∧ greaterThanOrEqualTo "0.3.0" "0.4.0" = Except.ok false
    ∧ greaterThanOrEqualTo "0.4.0" "0.4.0" = Except.ok true
    ∧ pluginMain envCheckFull (Except.ok (ConfigBody.valid "net" (some "0.5.0")))
        handlerOk handlerOk handlerOk infoThreeFour "about"
      = { err := some (NewError ErrCode.incompatibleVersion
            "plugin version does not allow CHECK" ""), stderrLines := [] } :=
  ⟨by decide, by decide, by decide, rfl, rfl, by decide⟩

/-- The environment of the C8 scenario: only `CNI_COMMAND=FROB` is set. -/
def envFrob : String → String := envTable [("CNI_COMMAND", "FROB")]

/-- Counterexample to C8 as stated: with `CNI_COMMAND=FROB`, extraction
succeeds (nothing else is required for an unrecognized command), yet with
a syntactically invalid config body the dispatcher fails with
`FailedDecode` from config validation, not with `UnknownOperation`. -/
theorem unknown_op_counterexample :
    getCmdArgsFromEnv envFrob (Except.ok (ConfigBody.invalid "bad"))
      = Except.ok ("FROB",
          { containerID := "", netns := "", ifName := "", args := "", path := "",
            stdinData := ConfigBody.invalid "bad" })
    ∧ pluginMain envFrob (Except.ok (ConfigBody.invalid "bad"))
        handlerOk handlerOk handlerOk infoThreeFour "about"
      = { err := some (NewError ErrCode.failedDecode
            "error unmarshall network config: bad" ""), stderrLines := [] }
    ∧ ErrCode.failedDecode ≠ ErrCode.unknownOperation :=
  ⟨rfl, by decide, by decide⟩

/-- Claim C8 (amended): when the command variable holds the unrecognized
value `"FROB"` (so no other parameter is required), extraction succeeds
and, provided the config body also passes validation (valid JSON with a
non-empty name), the dispatcher fails with `UnknownOperation` whose
message names `"FROB"`. -/
theorem unknown_op_frob (getenv : String → String)
    (cmdAdd cmdCheck cmdDel : CmdArgs → Option GoError) (versionInfo : PluginInfo)
    (about name : String) (vers : Option String)
    (hcmd : getenv "CNI_COMMAND" = "FROB") (hname : name ≠ "") :
    pluginMain getenv (Except.ok (ConfigBody.valid name vers))
        cmdAdd cmdCheck cmdDel versionInfo about
      = { err := some (NewError ErrCode.unknownOperation "unknown CNI_COMMAND: FROB" ""),
          stderrLines := [] } := by
  have hok : getCmdArgsFromEnv getenv (Except.ok (ConfigBody.valid name vers))
      = Except.ok ("FROB",
          { containerID := getenv "CNI_CONTAINERID", netns := getenv "CNI_NETNS",
            ifName := getenv "CNI_IFNAME", args := getenv "CNI_ARGS",
            path := getenv "CNI_PATH", stdinData := ConfigBody.valid name vers }) := by
    simp [getCmdArgsFromEnv, cniVars, hcmd]
  have hne : (name == "") = false := beq_eq_false_iff_ne.mpr hname
  simp [pluginMain, hok, validateConfig, hne, routeCmd]

/-- Witness for C8 (amended): only `CNI_COMMAND=FROB` set, valid body —
`UnknownOperation` naming `"FROB"`. -/
theorem unknown_op_frob_witness :
    pluginMain envFrob (Except.ok (ConfigBody.valid "net" none))
        handlerOk handlerOk handlerOk infoThreeFour "about"
      = { err := some (NewError ErrCode.unknownOperation "unknown CNI_COMMAND: FROB" ""),
          stderrLines := [] } :=
  unknown_op_frob _ _ _ _ _ _ "net" none rfl (by decide)

theorem checkLoop_skip_prefix (pre l : List String) (configVersion : String)
    (cmdArgs : CmdArgs) (versionInfo : PluginInfo)
    (cmdCheck : CmdArgs → Option GoError)
    (hpre : ∀ v ∈ pre, greaterThanOrEqualTo v configVersion = Except.ok false) :
    checkLoop (pre ++ l) configVersion cmdArgs versionInfo cmdCheck
      = checkLoop l configVersion cmdArgs versionInfo cmdCheck := by
  induction pre with
  | nil => rfl
  | cons v vs ih =>
    have hv := hpre v (by simp)
    rw [List.cons_append, checkLoop, hv]
    simp only [if_neg (by simp : ¬ (false : Bool) = true)]
    exact ih (fun w hw => hpre w (by simp [hw]))

/-- Claim C9: in the CHECK path, after the floor check succeeds and the
search over the supported versions succeeds — every entry before some
position compares `≥`-false and the entry there is `≥` the declared
version — the dispatcher still re-decodes the declared version and runs
the general reconciliation; if that general check rejects the declared
version, the outcome is its `IncompatibleVersion` error for *every* check
handler — so the handler is only invoked when the general compatibility
check also accepts. -/
theorem check_reruns_general_reconcile (getenv : String → String)
    (cmdAdd cmdCheck cmdDel : CmdArgs → Option GoError) (versionInfo : PluginInfo)
    (about name declared v₀ details : String) (pre vs : List String)
    (hcmd : getenv "CNI_COMMAND" = "CHECK")
    (hcid : getenv "CNI_CONTAINERID" ≠ "") (hns : getenv "CNI_NETNS" ≠ "")
    (hif : getenv "CNI_IFNAME" ≠ "") (hpath : getenv "CNI_PATH" ≠ "")
    (hname : name ≠ "")
    (hfloor : greaterThanOrEqualTo declared "0.4.0" = Except.ok true)
    (hsup : versionInfo.supportedVersions = pre ++ v₀ :: vs)
    (hpre : ∀ v ∈ pre, greaterThanOrEqualTo v declared = Except.ok false)
    (hfound : greaterThanOrEqualTo v₀ declared = Except.ok true)
    (hrec : reconcilerCheck declared versionInfo.supportedVersions = some details) :
    pluginMain getenv (Except.ok (ConfigBody.valid name (some declared)))
        cmdAdd cmdCheck cmdDel versionInfo about
      = { err := some (NewError ErrCode.incompatibleVersion
            "incompatible CNI versions" details), stderrLines := [] } := by
  have hok := getCmdArgs_ok getenv (ConfigBody.valid name (some declared))
    (by simp [hcmd]) (by simp [hcmd]) hcid hns hif hpath
  have hne : (name == "") = false := beq_eq_false_iff_ne.mpr hname
  rw [hsup] at hrec
  have hloop := checkLoop_skip_prefix pre (v₀ :: vs) declared
    { containerID := getenv "CNI_CONTAINERID", netns := getenv "CNI_NETNS",
      ifName := getenv "CNI_IFNAME", args := getenv "CNI_ARGS",
      path := getenv "CNI_PATH", stdinData := ConfigBody.valid name (some declared) }
    versionInfo cmdCheck hpre
  simp [pluginMain, hok, hcmd, validateConfig, hne, routeCmd, confVersionDecode, hfloor,
    hsup, hloop, checkLoop, hfound, checkVersionAndCall, hrec]

/-- Witness for C9: declared `"0.4.0"` passes the floor, the search skips
`"0.3.0"` and succeeds at `"0.5.0"`, yet the general reconciliation
rejects (`"0.4.0"` is not in the supported set), so CHECK fails with
`IncompatibleVersion` instead of reaching the handler. -/
theorem check_reruns_general_reconcile_witness :
    pluginMain envCheckFull (Except.ok (ConfigBody.valid "net" (some "0.4.0")))
        handlerOk handlerOk handlerOk ⟨["0.3.0", "0.5.0"], none⟩ "about"
      = { err := some (NewError ErrCode.incompatibleVersion "incompatible CNI versions"
            "config version 0.4.0 does not match supported versions [0.3.0,0.5.0]"),
          stderrLines := [] } :=
  check_reruns_general_reconcile _ _ _ _ _ _ _ "0.4.0" "0.5.0" _ ["0.3.0"] []
    rfl (by decide) (by decide) (by decide) (by decide) (by decide) rfl rfl
    (by intro v hv; simp at hv; subst hv; rfl) rfl rfl

/-- Claim C10: in the CHECK search over the plugin's supported versions, a
malformed supported-version string reached by the search (every earlier
entry compared `≥`-false) aborts the dispatch with `FailedDecode`
carrying the comparison's message — for every tail, including tails that
contain a compatible version, so the entry is not skipped and CHECK can
never succeed. -/
theorem malformed_supported_aborts (getenv : String → String)
    (cmdAdd cmdCheck cmdDel : CmdArgs → Option GoError) (versionInfo : PluginInfo)
    (about name declared bad emsg : String) (pre rest : List String)
    (hcmd : getenv "CNI_COMMAND" = "CHECK")
    (hcid : getenv "CNI_CONTAINERID" ≠ "") (hns : getenv "CNI_NETNS" ≠ "")
    (hif : getenv "CNI_IFNAME" ≠ "") (hpath : getenv "CNI_PATH" ≠ "")
    (hname : name ≠ "")
    (hfloor : greaterThanOrEqualTo declared "0.4.0" = Except.ok true)
    (hsup : versionInfo.supportedVersions = pre ++ bad :: rest)
    (hpre : ∀ v ∈ pre, greaterThanOrEqualTo v declared = Except.ok false)
    (hbad : greaterThanOrEqualTo bad declared = Except.error emsg) :
    pluginMain getenv (Except.ok (ConfigBody.valid name (some declared)))
        cmdAdd cmdCheck cmdDel versionInfo about
      = { err := some (NewError ErrCode.failedDecode emsg ""), stderrLines := [] } := by
  have hok := getCmdArgs_ok getenv (ConfigBody.valid name (some declared))
    (by simp [hcmd]) (by simp [hcmd]) hcid hns hif hpath
  have hne : (name == "") = false := beq_eq_false_iff_ne.mpr hname
  have hloop := checkLoop_skip_prefix pre (bad :: rest) declared
    { containerID := getenv "CNI_CONTAINERID", netns := getenv "CNI_NETNS",
      ifName := getenv "CNI_IFNAME", args := getenv "CNI_ARGS",
      path := getenv "CNI_PATH", stdinData := ConfigBody.valid name (some declared) }
    versionInfo cmdCheck hpre
  simp [pluginMain, hok, hcmd, validateConfig, hne, routeCmd, confVersionDecode, hfloor,
    hsup, hloop, checkLoop, hbad]

/-- Witness for C10: supported `["0.3.0", "banana", "0.4.0"]` with
declared `"0.4.0"`: the search passes `"0.3.0"`, hits the malformed
`"banana"` and aborts with `FailedDecode`, even though the compatible
`"0.4.0"` is listed right after it. -/
theorem malformed_supported_aborts_witness :
    pluginMain envCheckFull (Except.ok (ConfigBody.valid "net" (some "0.4.0")))
        handlerOk handlerOk handlerOk ⟨["0.3.0", "banana", "0.4.0"], none⟩ "about"
      = { err := some (NewError ErrCode.failedDecode "invalid version: banana" ""),
          stderrLines := [] } :=
  malformed_supported_aborts _ _ _ _ _ _ _ "0.4.0" "banana" _ ["0.3.0"] ["0.4.0"]
    rfl (by decide) (by decide) (by decide) (by decide) (by decide) rfl rfl
    (by intro v hv; simp at hv; subst hv; rfl) rfl

end CNI
